import Mathlib

/-!
Verification of the portfolio analytics tracker (`src/analytics.js`) and the
contact-form submission handler (`src/script.js`).

The JavaScript code is shallowly embedded: every handler body becomes a pure
Lean function, the mutable fields of the `PortfolioAnalytics` instance become
a `TrackerState` record threaded through an explicit `step` function, and the
sequence of DOM/browser callbacks a session delivers becomes a `List TrackerOp`
folded over `step`.  JavaScript numbers are modelled as exact rationals `ℚ`
(with `round : ℚ → ℤ` for `Math.round`, which agrees with JS rounding:
both are `⌊x + 1/2⌋`); a division whose denominator is zero yields a
non-finite JS value (`NaN` or `Infinity`), modelled as `Option.none`.
-/

/-- The `type` field of the objects pushed onto `this.interactions`
(the string literals `navigation`, `social`, `project`, `cta`, `theme`,
`section_view`). -/
inductive InteractionType
  | navigation
  | social
  | project
  | cta
  | theme
  | section_view
  deriving DecidableEq, Fintype

/-- One record pushed onto `this.interactions`, with the attributes the code
attaches per type (section id, platform, project title + link kind, button
label, theme name) and the `Date.now()` timestamp. -/
inductive InteractionEvent
  | navigation (sectionId : String) (timestamp : Int)
  | social (platform : String) (timestamp : Int)
  | project (projectTitle : String) (linkType : String) (timestamp : Int)
  | cta (button : String) (timestamp : Int)
  | theme (themeName : String) (timestamp : Int)
  | section_view (sectionId : String) (timestamp : Int)
  deriving DecidableEq

/-- The `type` discriminator of a log record. -/
def InteractionEvent.type : InteractionEvent → InteractionType
  | .navigation _ _ => .navigation
  | .social _ _ => .social
  | .project _ _ _ => .project
  | .cta _ _ => .cta
  | .theme _ _ => .theme
  | .section_view _ _ => .section_view

/-- One call forwarded to the external analytics sink:
the `gtag` call with an action, a category, a label and an optional value;
`value` is `none` when the three-argument form of `trackEvent` is used. -/
structure SinkCall where
  action : String
  category : String
  label : String
  value : Option Int
  deriving DecidableEq

/-- Forwarding guard installed by `setupGoogleAnalytics`: every sink call is
wrapped in a typeof check on the global `gtag`, because calling an undefined
global would throw a TypeError.  The forwarding is modelled in `Except` to
show no exception escapes; `present` is whether `gtag` exists. -/
def trackEvent (present : Bool) (c : SinkCall) : Except String (List SinkCall) :=
  if present then Except.ok [c] else Except.ok []

/-- The list of calls `trackEvent` actually makes to the sink. -/
def sinkCalls (present : Bool) (c : SinkCall) : List SinkCall :=
  if present then [c] else []

/-- The mutable state of a `PortfolioAnalytics` instance: `startTime` is the
`performance.now()` value captured in the constructor, `interactions` the
append-only log, `sectionViews` the `Map` of first-seen section ids built by
`trackSectionViews`, and `sinkLog` the calls delivered to `gtag` so far. -/
structure TrackerState where
  startTime : Int
  interactions : List InteractionEvent
  sectionViews : List (String × Int)
  sinkLog : List SinkCall
  deriving DecidableEq

/-- Membership test `sectionViews.has(sectionId)`. -/
def hasSection (views : List (String × Int)) (sectionId : String) : Bool :=
  views.any (fun p => p.1 == sectionId)

/-- Appends one record to `this.interactions` (JS `push`). -/
def pushInteraction (st : TrackerState) (e : InteractionEvent) : TrackerState :=
  { st with interactions := st.interactions ++ [e] }

/-- Forwards one event to the sink, extending `sinkLog` only when `gtag`
exists (the `typeof` guard). -/
def emit (present : Bool) (st : TrackerState) (c : SinkCall) : TrackerState :=
  { st with sinkLog := st.sinkLog ++ sinkCalls present c }

/-- Platform detection `getSocialPlatform(url)`: substring tests on the href. -/
def getSocialPlatform (url : String) : String :=
  if (url.splitOn "linkedin").length > 1 then "LinkedIn"
  else if (url.splitOn "github").length > 1 then "GitHub"
  else if (url.splitOn "codechef").length > 1 then "CodeChef"
  else "Unknown"

/-- One callback invocation on a live tracker.  The five click constructors
are the handlers wired by `trackUserInteractions`; `sectionIntersect` is one
entry delivered to the `IntersectionObserver` callback of `trackSectionViews`
(`visible` = `entry.isIntersecting`, `r` = `entry.intersectionRatio`);
`conversion` is a `trackConversion(type, value)` call.  `now` is the
`Date.now()` value at the time of the callback. -/
inductive TrackerOp
  | navClick (sectionId : String) (now : Int)
  | socialClick (url : String) (now : Int)
  | projectClick (projectTitle : String) (linkType : String) (now : Int)
  | ctaClick (button : String) (now : Int)
  | themeToggle (themeName : String) (now : Int)
  | sectionIntersect (sectionId : String) (visible : Bool) (r : ℚ) (now : Int)
  | conversion (kind : String) (value : Int)

/-- The state transition each callback performs, translated line by line from
`trackUserInteractions`, `trackSectionViews` and `trackConversion`. -/
def step (present : Bool) (st : TrackerState) : TrackerOp → TrackerState
  | .navClick sectionId now =>
      let st := emit present st ⟨"navigation_click", "User Interaction", sectionId, none⟩
      pushInteraction st (.navigation sectionId now)
  | .socialClick url now =>
      let platform := getSocialPlatform url
      let st := emit present st ⟨"social_click", "User Interaction", platform, none⟩
      pushInteraction st (.social platform now)
  | .projectClick projectTitle linkType now =>
      let st := emit present st
        ⟨"project_click", "User Interaction", projectTitle ++ " - " ++ linkType, none⟩
      pushInteraction st (.project projectTitle linkType now)
  | .ctaClick button now =>
      let st := emit present st ⟨"cta_click", "User Interaction", button, none⟩
      pushInteraction st (.cta button now)
  | .themeToggle themeName now =>
      let st := emit present st ⟨"theme_change", "User Interaction", themeName, none⟩
      pushInteraction st (.theme themeName now)
  | .sectionIntersect sectionId visible r now =>
      if visible ∧ (1 : ℚ)/2 < r ∧ ¬hasSection st.sectionViews sectionId then
        let st := { st with sectionViews := st.sectionViews ++ [(sectionId, now)] }
        let st := emit present st ⟨"section_view", "User Behavior", sectionId, none⟩
        pushInteraction st (.section_view sectionId now)
      else st
  | .conversion kind value =>
      let st := emit present st ⟨"conversion", "Conversion", kind, some value⟩
      if kind = "contact_attempt" then
        emit present st ⟨"contact_attempt", "Lead Generation", "Contact Form", some 1⟩
      else if kind = "project_engagement" then
        emit present st ⟨"project_engagement", "Portfolio Engagement", "Project View", some 1⟩
      else if kind = "resume_download" then
        emit present st ⟨"resume_download", "Lead Generation", "Resume Download", some 1⟩
      else st

/-- A freshly constructed tracker (`this.startTime = performance.now()`,
empty log, empty registry). -/
def initState (startTime : Int) : TrackerState :=
  { startTime := startTime, interactions := [], sectionViews := [], sinkLog := [] }

/-- A session: the tracker processes its callbacks in order. -/
def runSession (present : Bool) (st : TrackerState) (ops : List TrackerOp) : TrackerState :=
  ops.foldl (step present) st

/-- Per-type counts of the log, as computed by `getInteractionSummary` with
its `(summary[type] || 0) + 1` fold, seen as a total count function (a type
absent from the JS summary object has count 0). -/
def getInteractionSummary (l : List InteractionEvent) : InteractionType → ℕ :=
  fun t => (l.filter (fun e => e.type = t)).length

/-- The object `getAnalyticsSummary()` returns (minus `performanceMetrics`,
which the load handler fills; see `computeMetrics`). -/
structure Summary where
  totalInteractions : ℕ
  interactionTypes : InteractionType → ℕ
  sessionDuration : Int

/-- Summary query `getAnalyticsSummary()`, with `dateNow` the `Date.now()`
value at the moment of the query.  Note the code subtracts the stored
`performance.now()` value from a `Date.now()` epoch value. -/
def getAnalyticsSummary (dateNow : Int) (st : TrackerState) : Summary :=
  { totalInteractions := st.interactions.length
    interactionTypes := getInteractionSummary st.interactions
    sessionDuration := dateNow - st.startTime }

/-- Value of `performance.now()` at wall-clock epoch millisecond `t`, for a
page whose time origin (navigation start) is epoch millisecond `navStart`. -/
def perfNow (navStart t : Int) : Int := t - navStart

/-- The constructor run at epoch time `constructedAt` on such a page. -/
def constructTracker (navStart constructedAt : Int) : TrackerState :=
  initState (perfNow navStart constructedAt)

/-!  Scroll-depth tracking (`trackScrollBehavior`).

Each scroll event computes
`Math.round((window.scrollY / (document.body.scrollHeight - window.innerHeight)) * 100)`
and folds it into `maxScroll` with `Math.max`.  When the denominator is zero
the JS division yields `NaN` (for `scrollY = 0`) or `±Infinity`, a non-finite
value modelled here as `none`; `Math.round` and `Math.max` propagate such a
value (`Math.max(x, NaN) = NaN`, `Math.max(x, Infinity) = Infinity`), so a
fault absorbs in the fold. -/

/-- The scroll percentage computed on one scroll event. -/
def scrollPercent (scrollY scrollHeight innerHeight : ℚ) : Option ℤ :=
  if scrollHeight - innerHeight = 0 then none
  else some (round (scrollY / (scrollHeight - innerHeight) * 100))

/-- Update `maxScroll = Math.max(maxScroll, scrollPercent)`. -/
def maxScrollStep (m p : Option ℤ) : Option ℤ :=
  match m, p with
  | some a, some b => some (max a b)
  | _, _ => none

/-- One scroll event: the environment values
(`window.scrollY`, `document.body.scrollHeight`, `window.innerHeight`). -/
structure ScrollEvent where
  scrollY : ℚ
  scrollHeight : ℚ
  innerHeight : ℚ

/-- The running maximum after processing a list of scroll events from the
value `m`. -/
def runScrollFrom (m : Option ℤ) (events : List ScrollEvent) : Option ℤ :=
  events.foldl
    (fun m e => maxScrollStep m (scrollPercent e.scrollY e.scrollHeight e.innerHeight))
    m

/-- The running maximum after the scroll events of a session
(`maxScroll` starts at 0); this is the value the debounced timeout emits as
the `scroll_depth` event. -/
def runScroll (events : List ScrollEvent) : Option ℤ :=
  runScrollFrom (some 0) events

/-!  Page-load performance metrics (`trackPageLoad`, `getFirstPaint`,
`getFirstContentfulPaint`). -/

/-- The navigation-timing entry fields the load handler reads. -/
structure NavTiming where
  domContentLoadedEventStart : ℚ
  domContentLoadedEventEnd : ℚ
  loadEventStart : ℚ
  loadEventEnd : ℚ

/-- The paint-timing entries: `startTime` of the `first-paint` and
`first-contentful-paint` entries when present. -/
structure PaintTimings where
  firstPaint : Option ℚ
  firstContentfulPaint : Option ℚ

/-- Reading `getFirstPaint()`: `Math.round(entry.startTime)`, 0 when absent. -/
def getFirstPaint (p : PaintTimings) : ℤ :=
  match p.firstPaint with
  | some t => round t
  | none => 0

/-- Reading `getFirstContentfulPaint()`: likewise. -/
def getFirstContentfulPaint (p : PaintTimings) : ℤ :=
  match p.firstContentfulPaint with
  | some t => round t
  | none => 0

/-- Fields of `this.performanceMetrics` as assigned in the load handler. -/
structure PerformanceMetrics where
  domContentLoaded : ℤ
  loadComplete : ℤ
  firstPaint : ℤ
  firstContentfulPaint : ℤ

/-- The metric computation in the load handler. -/
def computeMetrics (nav : NavTiming) (p : PaintTimings) : PerformanceMetrics :=
  { domContentLoaded := round (nav.domContentLoadedEventEnd - nav.domContentLoadedEventStart)
    loadComplete := round (nav.loadEventEnd - nav.loadEventStart)
    firstPaint := getFirstPaint p
    firstContentfulPaint := getFirstContentfulPaint p }

/-- Entries `Object.entries(this.performanceMetrics)` in insertion order. -/
def metricEntries (m : PerformanceMetrics) : List (String × ℤ) :=
  [("domContentLoaded", m.domContentLoaded),
   ("loadComplete", m.loadComplete),
   ("firstPaint", m.firstPaint),
   ("firstContentfulPaint", m.firstContentfulPaint)]

/-- The entries the load handler forwards: `if (value > 0) trackEvent(...)`. -/
def reportedMetrics (m : PerformanceMetrics) : List (String × ℤ) :=
  (metricEntries m).filter (fun e => 0 < e.2)

/-!  Contact-form submission (`src/script.js`, `initContactForm`).

The UI effects of the submit handler are modelled on a record of the
class-list bits it flips; `simulateFormSubmission` resolves when
`Math.random() > 0.1`, with the random draw `r` passed in explicitly. -/

/-- The presentation state the submit handler touches. -/
structure FormUIState where
  successVisible : Bool
  errorVisible : Bool
  submitDisabled : Bool
  btnTextVisible : Bool
  btnLoadingVisible : Bool
  formCleared : Bool
  deriving DecidableEq

/-- Simulated backend call `simulateFormSubmission()`: resolves with the
success message when `Math.random() > 0.1`, rejects with a simulated network
error otherwise. -/
def simulateFormSubmission (r : ℚ) : Except String String :=
  if (1 : ℚ)/10 < r then Except.ok "Message sent successfully"
  else Except.error "Simulated network error"

/-- The submit handler on a form that passed validation: hide both messages,
enter the loading state, await the simulated submission, then the
`try`/`catch`/`finally` clauses. -/
def submitValidForm (r : ℚ) (ui : FormUIState) : FormUIState :=
  let ui := { ui with successVisible := false, errorVisible := false }
  let ui := { ui with submitDisabled := true, btnTextVisible := false, btnLoadingVisible := true }
  let ui :=
    match simulateFormSubmission r with
    | Except.ok _ => { ui with successVisible := true, formCleared := true }
    | Except.error _ => { ui with errorVisible := true }
  { ui with submitDisabled := false, btnTextVisible := true, btnLoadingVisible := false }

/-!  Specification-side counting used to relate `totalInteractions` to the
operations of a session. -/

/-- Whether processing `op` in state `st` appends a record to
`this.interactions`: every click handler does, a section intersection does
exactly when it passes the first-view guard, and `trackConversion` never
does (it only forwards to the sink). -/
def opAppends (st : TrackerState) : TrackerOp → Bool
  | .sectionIntersect sectionId visible r _ =>
      decide (visible ∧ (1 : ℚ)/2 < r ∧ ¬hasSection st.sectionViews sectionId)
  | .conversion _ _ => false
  | _ => true

/-- Number of log appends a session performs from state `st`. -/
def appendCount (present : Bool) : TrackerState → List TrackerOp → ℕ
  | _, [] => 0
  | st, op :: ops =>
      (if opAppends st op then 1 else 0) + appendCount present (step present st op) ops

/-- Recognizes the section-view log records for a given section id. -/
def isSectionViewOf (sectionId : String) : InteractionEvent → Bool
  | .section_view s _ => s == sectionId
  | _ => false

/-!  Helper lemmas. -/

/-- Per-type counts of a one-longer log. -/
theorem getInteractionSummary_cons (e : InteractionEvent) (l : List InteractionEvent)
    (t : InteractionType) :
    getInteractionSummary (e :: l) t =
      (if e.type = t then 1 else 0) + getInteractionSummary l t := by
  simp only [getInteractionSummary, List.filter_cons]
  split
  · simp_all
    omega
  · simp_all

/-- The per-type counts of a log sum to its length. -/
theorem sum_getInteractionSummary (l : List InteractionEvent) :
    ∑ t : InteractionType, getInteractionSummary l t = l.length := by
  induction l with
  | nil => simp [getInteractionSummary]
  | cons e l ih =>
      simp only [getInteractionSummary_cons, Finset.sum_add_distrib, ih,
        Finset.sum_ite_eq, Finset.mem_univ, if_true, List.length_cons]
      omega

/-- Claim C10: for every state of the in-memory interaction log, the sum over
all event types of the per-type counts returned in
`getSummary().interactionTypes` equals `getSummary().totalInteractions`. -/
theorem sum_interactionTypes_eq_totalInteractions (dateNow : Int) (st : TrackerState) :
    ∑ t : InteractionType, (getAnalyticsSummary dateNow st).interactionTypes t =
      (getAnalyticsSummary dateNow st).totalInteractions := by
  simpa [getAnalyticsSummary] using sum_getInteractionSummary st.interactions

/-- Claim C5: trackConversion with kind resume_download and value 1 produces
exactly two recorded events — the generic conversion event followed by the
resume_download-specific event carrying value 1 — and for every kind outside
contact_attempt, project_engagement and resume_download, trackConversion
records the generic conversion event only. -/
theorem trackConversion_event_counts :
    (step true (initState 0) (.conversion "resume_download" 1)).sinkLog =
      [⟨"conversion", "Conversion", "resume_download", some 1⟩,
       ⟨"resume_download", "Lead Generation", "Resume Download", some 1⟩] ∧
    ∀ (st : TrackerState) (kind : String) (value : Int),
      kind ≠ "contact_attempt" → kind ≠ "project_engagement" → kind ≠ "resume_download" →
      (step true st (.conversion kind value)).sinkLog =
        st.sinkLog ++ [⟨"conversion", "Conversion", kind, some value⟩] := by
  constructor
  · rfl
  · intro st kind value h1 h2 h3
    simp [step, emit, sinkCalls, h1, h2, h3]

/-- Witness for C5 at the unrecognized kind "theme_share". -/
theorem trackConversion_event_counts_witness :
    (step true (initState 0) (.conversion "theme_share" 2)).sinkLog =
      (initState 0).sinkLog ++ [⟨"conversion", "Conversion", "theme_share", some 2⟩] :=
  trackConversion_event_counts.2 (initState 0) "theme_share" 2
    (by decide) (by decide) (by decide)

/-- Claim C7: after the load event a performance metric is forwarded if and
only if its computed value is strictly positive; with
domContentLoadedEventEnd = 1200 and domContentLoadedEventStart = 1000 the
captured domContentLoaded metric is 200 and is reported, while the
loadComplete metric computed as 0 is not reported. -/
theorem metrics_reported_iff_positive :
    (∀ (nav : NavTiming) (p : PaintTimings) (e : String × ℤ),
        e ∈ reportedMetrics (computeMetrics nav p) ↔
          e ∈ metricEntries (computeMetrics nav p) ∧ 0 < e.2) ∧
    (computeMetrics ⟨1000, 1200, 0, 0⟩ ⟨none, none⟩).domContentLoaded = 200 ∧
    ("domContentLoaded", (200 : ℤ)) ∈
      reportedMetrics (computeMetrics ⟨1000, 1200, 0, 0⟩ ⟨none, none⟩) ∧
    ("loadComplete", (0 : ℤ)) ∉
      reportedMetrics (computeMetrics ⟨1000, 1200, 0, 0⟩ ⟨none, none⟩) := by
  refine ⟨?_, ?_, ?_, ?_⟩
  · intro nav p e
    simp [reportedMetrics, List.mem_filter]
  · show round ((1200 : ℚ) - 1000) = 200
    norm_num [round_eq]
  · have h : computeMetrics ⟨1000, 1200, 0, 0⟩ ⟨none, none⟩ = ⟨200, 0, 0, 0⟩ := by
      simp only [computeMetrics, getFirstPaint, getFirstContentfulPaint]
      norm_num [round_eq]
    rw [h]
    decide
  · have h : computeMetrics ⟨1000, 1200, 0, 0⟩ ⟨none, none⟩ = ⟨200, 0, 0, 0⟩ := by
      simp only [computeMetrics, getFirstPaint, getFirstContentfulPaint]
      norm_num [round_eq]
    rw [h]
    decide

/-- Claim C9: when the simulated submission rejects, the error message is
made visible, and for every outcome of the simulated promise the submit
button ends enabled and non-loading with its text restored (the finally
block). -/
theorem submit_failure_restores_ui :
    ∀ (r : ℚ) (ui : FormUIState),
      (∀ msg, simulateFormSubmission r = Except.error msg →
        (submitValidForm r ui).errorVisible = true) ∧
      (submitValidForm r ui).submitDisabled = false ∧
      (submitValidForm r ui).btnTextVisible = true ∧
      (submitValidForm r ui).btnLoadingVisible = false := by
  intro r ui
  refine ⟨?_, rfl, rfl, rfl⟩
  intro msg hmsg
  simp [submitValidForm, hmsg]

/-- Witness for C9 at the failing draw r = 0 on a concrete UI state. -/
theorem submit_failure_restores_ui_witness :
    (submitValidForm 0 ⟨false, false, false, true, false, false⟩).errorVisible = true :=
  (submit_failure_restores_ui 0 ⟨false, false, false, true, false, false⟩).1
    "Simulated network error" (by norm_num [simulateFormSubmission])

/-- One step preserves agreement of the log and the registry between two
trackers that differ only in sink availability (and hence possibly in
`sinkLog`). -/
theorem step_state_sink_indep (p q : Bool) (st su : TrackerState)
    (hi : st.interactions = su.interactions) (hs : st.sectionViews = su.sectionViews)
    (op : TrackerOp) :
    (step p st op).interactions = (step q su op).interactions ∧
    (step p st op).sectionViews = (step q su op).sectionViews := by
  cases op
  case conversion kind value =>
    by_cases h1 : kind = "contact_attempt"
    · simp [step, emit, h1, hi, hs]
    · by_cases h2 : kind = "project_engagement"
      · simp [step, emit, h1, h2, hi, hs]
      · by_cases h3 : kind = "resume_download"
        · simp [step, emit, h1, h2, h3, hi, hs]
        · simp [step, emit, h1, h2, h3, hi, hs]
  all_goals simp [step, emit, pushInteraction, apply_ite, hi, hs]

/-- A whole session preserves that agreement. -/
theorem runSession_state_sink_indep (p q : Bool) (ops : List TrackerOp) :
    ∀ (st su : TrackerState),
      st.interactions = su.interactions → st.sectionViews = su.sectionViews →
      (runSession p st ops).interactions = (runSession q su ops).interactions ∧
      (runSession p st ops).sectionViews = (runSession q su ops).sectionViews := by
  induction ops with
  | nil => exact fun st su hi hs => ⟨hi, hs⟩
  | cons op ops ih =>
      intro st su hi hs
      have h := step_state_sink_indep p q st su hi hs op
      exact ih (step p st op) (step q su op) h.1 h.2

/-- Claim C6: when the external sink function is absent every forwarded call
is a silent no-op — `trackEvent` returns normally (no exception reaches the
caller that triggered the event), and over any session the interaction log
and the section registry evolve exactly as they do with the sink present. -/
theorem sink_absent_silent_noop :
    (∀ (present : Bool) (c : SinkCall), trackEvent present c = Except.ok (sinkCalls present c)) ∧
    ∀ (st : TrackerState) (ops : List TrackerOp),
      (runSession false st ops).interactions = (runSession true st ops).interactions ∧
      (runSession false st ops).sectionViews = (runSession true st ops).sectionViews := by
  constructor
  · intro present c
    cases present <;> rfl
  · intro st ops
    exact runSession_state_sink_indep false true ops st st rfl rfl

/-- One step lengthens the log by one exactly when `opAppends` says so. -/
theorem step_interactions_length (present : Bool) (st : TrackerState) (op : TrackerOp) :
    (step present st op).interactions.length =
      st.interactions.length + (if opAppends st op then 1 else 0) := by
  cases op
  case sectionIntersect sectionId visible r now =>
    simp only [step, opAppends, emit, pushInteraction]
    split <;> rename_i h <;> simp_all
  case conversion kind value =>
    by_cases h1 : kind = "contact_attempt"
    · simp [step, emit, opAppends, h1]
    · by_cases h2 : kind = "project_engagement"
      · simp [step, emit, opAppends, h1, h2]
      · by_cases h3 : kind = "resume_download"
        · simp [step, emit, opAppends, h1, h2, h3]
        · simp [step, emit, opAppends, h1, h2, h3]
  all_goals simp [step, emit, pushInteraction, opAppends]

/-- Over a session the log length grows by exactly the number of appends. -/
theorem runSession_interactions_length (present : Bool) (ops : List TrackerOp) :
    ∀ st : TrackerState,
      (runSession present st ops).interactions.length =
        st.interactions.length + appendCount present st ops := by
  induction ops with
  | nil => intro st; simp [runSession, appendCount]
  | cons op ops ih =>
      intro st
      have h1 : runSession present st (op :: ops) = runSession present (step present st op) ops := by
        simp [runSession]
      rw [h1, ih (step present st op), step_interactions_length, appendCount]
      omega

/-- Countermodel for claim C1 as stated: one call
trackConversion with kind resume_download and value 1 records two events
during the session (both forwarded to the sink), yet
getSummary().totalInteractions is 0, not 2 — the log does not count the
events triggered by trackConversion. -/
theorem totalInteractions_misses_conversion :
    (getAnalyticsSummary 0 (runSession true (initState 0)
        [.conversion "resume_download" 1])).totalInteractions = 0 ∧
    (runSession true (initState 0) [.conversion "resume_download" 1]).sinkLog.length = 2 ∧
    (0 : ℕ) ≠ 2 := by
  exact ⟨rfl, rfl, by decide⟩

/-- Claim C1 as amended: `getSummary().totalInteractions` equals the number
of interaction-log appends performed during the session — one per
user-interaction handler invocation and one per first-time section view —
while `trackConversion` contributes none (it only forwards to the sink). -/
theorem totalInteractions_eq_appendCount :
    ∀ (dateNow : Int) (present : Bool) (st : TrackerState) (ops : List TrackerOp),
      (getAnalyticsSummary dateNow (runSession present st ops)).totalInteractions =
        st.interactions.length + appendCount present st ops ∧
      ∀ (su : TrackerState) (kind : String) (value : Int),
        opAppends su (.conversion kind value) = false := by
  intro dateNow present st ops
  exact ⟨runSession_interactions_length present ops st, fun su kind value => rfl⟩

/-- Observing an already-registered section id leaves the whole tracker
state unchanged (the first-view guard fails). -/
theorem step_sectionIntersect_registered (present : Bool) (st : TrackerState)
    (sectionId : String) (visible : Bool) (r : ℚ) (now : Int)
    (h : hasSection st.sectionViews sectionId = true) :
    step present st (.sectionIntersect sectionId visible r now) = st := by
  simp [step, h]

/-- A run of observations of a registered id is a no-op. -/
theorem runSession_sectionIntersect_registered (present : Bool) (sectionId : String)
    (obs : List (ℚ × Int)) :
    ∀ st : TrackerState, hasSection st.sectionViews sectionId = true →
      runSession present st
        (obs.map (fun p => .sectionIntersect sectionId true p.1 p.2)) = st := by
  induction obs with
  | nil => intro st _; rfl
  | cons p obs ih =>
      intro st h
      simp only [List.map_cons, runSession, List.foldl_cons]
      rw [step_sectionIntersect_registered present st sectionId true p.1 p.2 h]
      exact ih st h

/-- The first qualifying observation of an unregistered id registers it and
logs the one section_view record. -/
theorem step_sectionIntersect_first (present : Bool) (sectionId : String)
    (r : ℚ) (now : Int) (hr : (1 : ℚ)/2 < r) :
    step present (initState 0) (.sectionIntersect sectionId true r now) =
      { startTime := 0,
        interactions := [InteractionEvent.section_view sectionId now],
        sectionViews := [(sectionId, now)],
        sinkLog := sinkCalls present
          ⟨"section_view", "User Behavior", sectionId, none⟩ } := by
  have hr2 : (2 : ℚ)⁻¹ < r := by rwa [one_div] at hr
  simp [step, emit, pushInteraction, initState, hasSection, hr2]

/-- Claim C2: for every nonempty sequence of qualifying observations of the
same section id (each intersecting with ratio above one half), exactly one
section_view record for that id ends up in the log and exactly one entry for
it in the registry; moreover observing an id that is already registered is a
no-op on the whole tracker state. -/
theorem section_view_recorded_once :
    ∀ (present : Bool) (sectionId : String) (obs : List (ℚ × Int)),
      obs ≠ [] → (∀ p ∈ obs, (1 : ℚ)/2 < p.1) →
      (((runSession present (initState 0)
          (obs.map (fun p => .sectionIntersect sectionId true p.1 p.2))).interactions.filter
            (isSectionViewOf sectionId)).length = 1 ∧
       ((runSession present (initState 0)
          (obs.map (fun p => .sectionIntersect sectionId true p.1 p.2))).sectionViews.filter
            (fun q => q.1 == sectionId)).length = 1) ∧
      ∀ (st : TrackerState) (visible : Bool) (r : ℚ) (now : Int),
        hasSection st.sectionViews sectionId = true →
        step present st (.sectionIntersect sectionId visible r now) = st := by
  intro present sectionId obs hne hall
  refine ⟨?_, fun st visible r now h =>
    step_sectionIntersect_registered present st sectionId visible r now h⟩
  cases obs with
  | nil => exact absurd rfl hne
  | cons p rest =>
      have hr : (1 : ℚ)/2 < p.1 := hall p (List.mem_cons_self p rest)
      have hrun : runSession present (initState 0)
          ((p :: rest).map (fun p => .sectionIntersect sectionId true p.1 p.2)) =
          { startTime := 0,
            interactions := [InteractionEvent.section_view sectionId p.2],
            sectionViews := [(sectionId, p.2)],
            sinkLog := sinkCalls present
              ⟨"section_view", "User Behavior", sectionId, none⟩ } := by
        simp only [List.map_cons, runSession, List.foldl_cons]
        rw [step_sectionIntersect_first present sectionId p.1 p.2 hr]
        exact runSession_sectionIntersect_registered present sectionId rest _
          (by simp [hasSection])
      rw [hrun]
      constructor
      · simp [isSectionViewOf]
      · simp

/-- Witness for C2: two qualifying observations of the section id "about"
leave exactly one section_view record in the log. -/
theorem section_view_recorded_once_witness :
    ((runSession true (initState 0)
        ([((3 : ℚ)/4, (5 : Int)), ((9 : ℚ)/10, 9)].map
          (fun p => TrackerOp.sectionIntersect "about" true p.1 p.2))).interactions.filter
        (isSectionViewOf "about")).length = 1 :=
  (section_view_recorded_once true "about" [((3 : ℚ)/4, 5), ((9 : ℚ)/10, 9)]
    (by simp) (by norm_num)).1.1

/-- Claim C3 fails on the code: when the total scrollable height equals the
viewport height the denominator is zero and the JS division produces a
non-finite fault value (NaN or Infinity, here `none`) instead of 0, and the
fault is folded into the running maximum the debounced timeout emits rather
than the emission being skipped. -/
theorem scroll_zero_denominator_fault :
    scrollPercent 100 800 800 = none ∧
    scrollPercent 100 800 800 ≠ some 0 ∧
    runScroll [⟨0, 900, 100⟩, ⟨100, 800, 800⟩] = none := by
  have h2 : scrollPercent 100 800 800 = none := by norm_num [scrollPercent]
  have h1 : scrollPercent 0 900 100 = some 0 := by
    norm_num [scrollPercent, round_eq]
  refine ⟨h2, by rw [h2]; exact fun h => Option.noConfusion h, ?_⟩
  simp [runScroll, runScrollFrom, h1, h2, maxScrollStep]

/-- The browser input range for one scroll event: the page is actually
scrollable and the scroll offset lies between 0 and the scrollable distance
(the implicit clamping the spec appeals to). -/
def goodScrollEvent (e : ScrollEvent) : Prop :=
  0 < e.scrollHeight - e.innerHeight ∧ 0 ≤ e.scrollY ∧
    e.scrollY ≤ e.scrollHeight - e.innerHeight

/-- Under the input range the computed percentage is finite and in [0, 100]. -/
theorem scrollPercent_bounds (y h i : ℚ) (hd : 0 < h - i) (h0 : 0 ≤ y) (h1 : y ≤ h - i) :
    ∃ p : ℤ, scrollPercent y h i = some p ∧ 0 ≤ p ∧ p ≤ 100 := by
  have hne : h - i ≠ 0 := ne_of_gt hd
  refine ⟨round (y / (h - i) * 100), by simp [scrollPercent, hne], ?_, ?_⟩
  · have hq : (0 : ℚ) ≤ y / (h - i) * 100 := by positivity
    rw [round_eq]
    have hfl := Int.floor_mono (by linarith : (1 : ℚ)/2 ≤ y / (h - i) * 100 + 1/2)
    have h0fl : (0 : ℤ) ≤ ⌊(1 : ℚ)/2⌋ := by norm_num
    omega
  · have hq : y / (h - i) * 100 ≤ 100 := by
      have hdiv : y / (h - i) ≤ 1 := (div_le_one hd).mpr h1
      nlinarith
    rw [round_eq]
    have hfl := Int.floor_mono (by linarith : y / (h - i) * 100 + 1/2 ≤ (100 : ℚ) + 1/2)
    have h100 : ⌊(100 : ℚ) + 1/2⌋ = 100 := by
      rw [Int.floor_eq_iff]
      norm_num
    omega

/-- Folding qualifying scroll events from a value in [0, 100] stays finite,
only grows, and stays in [0, 100]. -/
theorem runScrollFrom_bounds :
    ∀ events : List ScrollEvent, (∀ e ∈ events, goodScrollEvent e) →
      ∀ a : ℤ, 0 ≤ a → a ≤ 100 →
        ∃ m : ℤ, runScrollFrom (some a) events = some m ∧ a ≤ m ∧ 0 ≤ m ∧ m ≤ 100 := by
  intro events
  induction events with
  | nil => exact fun _ a h0 h1 => ⟨a, rfl, le_refl a, h0, h1⟩
  | cons e events ih =>
      intro hg a h0 h1
      obtain ⟨hd, hy0, hy1⟩ := hg e (List.mem_cons_self e events)
      obtain ⟨p, hp, hp0, hp1⟩ :=
        scrollPercent_bounds e.scrollY e.scrollHeight e.innerHeight hd hy0 hy1
      have hstep : runScrollFrom (some a) (e :: events) =
          runScrollFrom (some (max a p)) events := by
        simp [runScrollFrom, hp, maxScrollStep]
      obtain ⟨m, hm, hle, hm0, hm1⟩ :=
        ih (fun e he => hg e (List.mem_cons_of_mem _ he)) (max a p)
          (le_trans h0 (le_max_left a p)) (max_le h1 hp1)
      exact ⟨m, hstep ▸ hm, le_trans (le_max_left a p) hle, hm0, hm1⟩

/-- Claim C4: across every session of scroll events within the browser input
range, and any later continuation of it, the running scroll-depth maximum is
finite, monotonically non-decreasing, and stays within [0, 100]. -/
theorem maxScroll_monotone_bounded :
    ∀ (evs more : List ScrollEvent),
      (∀ e ∈ evs, goodScrollEvent e) → (∀ e ∈ more, goodScrollEvent e) →
      ∃ m m' : ℤ, runScroll evs = some m ∧ runScroll (evs ++ more) = some m' ∧
        m ≤ m' ∧ 0 ≤ m ∧ m ≤ 100 ∧ 0 ≤ m' ∧ m' ≤ 100 := by
  intro evs more hg hg'
  obtain ⟨m, hm, _, hm0, hm1⟩ := runScrollFrom_bounds evs hg 0 (le_refl 0) (by norm_num)
  obtain ⟨m', hm', hle, hm'0, hm'1⟩ := runScrollFrom_bounds more hg' m hm0 hm1
  have happ : runScroll (evs ++ more) = runScrollFrom (runScrollFrom (some 0) evs) more := by
    simp [runScroll, runScrollFrom, List.foldl_append]
  have hm'' : runScrollFrom (some 0) evs = some m := hm
  exact ⟨m, m', hm, by rw [happ, hm'']; exact hm', hle, hm0, hm1, hm'0, hm'1⟩

/-- Witness for C4 on a concrete two-event session and one-event extension. -/
theorem maxScroll_monotone_bounded_witness :
    ∃ m m' : ℤ,
      runScroll [⟨50, 200, 100⟩, ⟨20, 200, 100⟩] = some m ∧
      runScroll ([⟨50, 200, 100⟩, ⟨20, 200, 100⟩] ++ [⟨100, 200, 100⟩]) = some m' ∧
      m ≤ m' ∧ 0 ≤ m ∧ m ≤ 100 ∧ 0 ≤ m' ∧ m' ≤ 100 :=
  maxScroll_monotone_bounded [⟨50, 200, 100⟩, ⟨20, 200, 100⟩] [⟨100, 200, 100⟩]
    (by intro e he; fin_cases he <;> norm_num [goodScrollEvent])
    (by intro e he; fin_cases he; norm_num [goodScrollEvent])

/-- Claim C8 fails on the code: `sessionDuration` subtracts a
`performance.now()` origin-relative value (stored at construction) from a
`Date.now()` epoch value.  On a page whose navigation started at epoch
1700000000000, a tracker constructed at epoch 1700000001000 stores
startTime = 1000; queried 5000 ms later (epoch 1700000006000) the code
returns 1700000005000, not the elapsed 5000. -/
theorem sessionDuration_mixes_clocks :
    (constructTracker 1700000000000 1700000001000).startTime = 1000 ∧
    (getAnalyticsSummary 1700000006000
        (constructTracker 1700000000000 1700000001000)).sessionDuration = 1700000005000 ∧
    (1700000006000 : Int) - 1700000001000 = 5000 ∧
    (1700000005000 : Int) ≠ 5000 := by
  refine ⟨rfl, rfl, by norm_num, by norm_num⟩
